import Mathlib

/-!
Shallow embedding of the action-dispatch and wallet-operation layer of
`src/ZerePy/src/connections/monad_connection.py` (class `MonadConnection`).

Modelling conventions:
  * Monetary amounts are rationals (`ℚ`): the Python code computes with
    floats/Decimals, but every quantity the verified properties touch
    (0.00105 gas cost, balances, transfer amounts) is compared and added
    exactly; the rational embedding mirrors those computations exactly.
  * Python exceptions become `Except PyErr`; a function that cannot raise is
    total.
  * The chain client (web3) is an oracle `Chain`: each RPC's outcome is a
    field of type `Except PyErr _`.  Operations additionally return the list
    of chain-client invocations they performed, so "zero chain calls" claims
    are directly statable.
  * `hashlib.sha256(...).hexdigest()` is replaced by an injective placeholder
    `sha256hex`; no verified property depends on digest values.
  * `random.*` draws are passed in as explicit oracle arguments.
-/

/-- Python exception values, restricted to the constructors the connection
code can produce or observe.  `keyDerivationError` stands for the error type
raised inside `eth_account`'s `from_key`; `chainError` for errors raised by
the chain client (RPC layer). -/
inductive PyErr where
  | valueError (msg : String)
  | keyError (msg : String)
  | monadConnectionError (msg : String)
  | keyDerivationError (msg : String)
  | chainError (msg : String)
  deriving DecidableEq

/-- Message text of a Python exception (what `str(e)` renders). -/
def pyErrMsg : PyErr → String
  | .valueError m => m
  | .keyError m => m
  | .monadConnectionError m => m
  | .keyDerivationError m => m
  | .chainError m => m

deriving instance DecidableEq for Except

/-- Boolean success test for `Except`. -/
def isOkE {ε α : Type} : Except ε α → Bool
  | .ok _ => true
  | .error _ => false

/-- Boolean failure test for `Except`. -/
def isErrE {ε α : Type} : Except ε α → Bool
  | .ok _ => false
  | .error _ => true

/-- Substring test used to state that an error message does (not) mention an
action name: `sub` occurs contiguously somewhere in `s`. -/
def containsSubstr (s sub : String) : Bool :=
  (List.range (s.data.length + 1)).any (fun i => sub.data.isPrefixOf (s.data.drop i))

-- ===== constants from monad_connection.py =====

def MONAD_BASE_GAS_PRICE : ℕ := 50
def MONAD_CHAIN_ID : ℕ := 10143
def MONAD_SCANNER_URL : String := "testnet.monadexplorer.com"
def NATIVE_TOKEN : String := "0xEeeeeEeeeEeEeeEeEeEeeEEEeeeeEeeeeeeeEEeE"
def PRIVATEPAY_CONTRACT_ADDRESS : String := "0x06A8307922cAdcfD5d4489cF69030CA96E823145"

/-- Gas price in wei used for every transaction: `Web3.to_wei(50, 'gwei')`. -/
def gas_price_wei : ℤ := 50 * 10 ^ 9

/-- Pre-checked gas cost of a simple transfer, in ether units:
`from_wei(to_wei(50 * 21000, 'gwei'), 'ether')` = 0.00105. -/
def gas_cost_eth : ℚ := (50 * 21000 * 10 ^ 9 : ℚ) / 10 ^ 18

/-- Explorer link construction (`_get_explorer_link`). -/
def get_explorer_link (tx_hash : String) : String :=
  "https://" ++ MONAD_SCANNER_URL ++ "/tx/" ++ tx_hash

/-- Injective placeholder for `hashlib.sha256(s.encode()).hexdigest()`.
No verified property depends on actual digest values. -/
def sha256hex (s : String) : String :=
  "sha256(" ++ s ++ ")"

-- ===== account resolution =====

def hexChars : String := "0123456789abcdefABCDEF"

/-- Lower-casing, modelling Python `str.lower()` on ASCII data. -/
def strLower (s : String) : String := String.mk (s.data.map Char.toLower)

/-- Syntactic well-formedness of a private key as `eth_account` checks it
internally: 32 bytes of hex, with an optional `0x` prefix. -/
def wellFormedKey (k : String) : Bool :=
  let h := if ("0x").data.isPrefixOf k.data then k.data.drop 2 else k.data
  h.length == 64 && h.all (fun c => hexChars.data.contains c)

/-- A resolved signing account (address derivation is abstracted; no claim
depends on the concrete address bytes). -/
structure Account where
  address : String
  deriving DecidableEq

/-- Models `eth_account`'s `from_key`: the external cryptographic derivation
routine.  Its internal validation and the error it raises belong to the
library, not to the connection code that calls it. -/
def from_key (k : String) : Except PyErr Account :=
  if wellFormedKey k then
    .ok ⟨"0x" ++ sha256hex k⟩
  else
    .error (.keyDerivationError "The private key must be exactly 32 bytes long")

/-- Process-wide configuration state: `os.getenv('MONAD_PRIVATE_KEY')`. -/
structure Env where
  privateKey : Option String

/-- Models `_get_current_account` (monad_connection.py lines 207-212).
First component: the Python outcome.  Second component: instrumentation
recording whether the configured key was handed to the cryptographic
derivation routine `from_key` (`True` exactly when `from_key` was invoked).
Python's `if not private_key` treats both an absent and an empty key as
missing. -/
def get_current_account (env : Env) : Except PyErr Account × Bool :=
  match env.privateKey with
  | none => (.error (.monadConnectionError "No wallet private key configured"), false)
  | some k =>
    if k = "" then
      (.error (.monadConnectionError "No wallet private key configured"), false)
    else
      (from_key k, true)

-- ===== chain client oracle =====

/-- One chain-client (RPC) invocation kind, for counting chain calls. -/
inductive ChainCall where
  | getBalanceNative
  | tokenDecimals
  | tokenBalanceOf
  | getTxCount
  | buildTokenTx
  | buildContractTx
  | sendRaw
  deriving DecidableEq

/-- Oracle for the chain client: the outcome each RPC would produce if
invoked during the call being modelled. -/
structure Chain where
  isConnected : Bool
  getBalanceNative : Except PyErr ℚ
  tokenDecimals : Except PyErr ℕ
  tokenBalanceRaw : Except PyErr ℕ
  getTxCount : Except PyErr ℕ
  buildTokenTx : Except PyErr Unit
  buildContractTx : Except PyErr Unit
  sendRaw : Except PyErr String

/-- Syntactic address check modelling `Web3.is_address` (EIP-55 checksum
subtleties are irrelevant to every verified property). -/
def is_address (s : String) : Bool :=
  ("0x").data.isPrefixOf s.data && s.data.length == 42 &&
    (s.data.drop 2).all (fun c => hexChars.data.contains c)

/-- Models `Web3.to_checksum_address`: raises for a syntactically invalid
address, otherwise normalizes (normalization abstracted to identity). -/
def to_checksum_address (s : String) : Except PyErr String :=
  if is_address s then .ok s
  else .error (.valueError ("when sending a str, it must be a hex string. Got: " ++ s))

/-- Python `int()` on a rational value: truncation toward zero. -/
def pyInt (q : ℚ) : ℤ :=
  if 0 ≤ q then Int.floor q else Int.ceil q

/-- True when `token_address` names the native-token sentinel
(`token_address.lower() == self.NATIVE_TOKEN.lower()`). -/
def tokenIsNativeStr (t : String) : Bool :=
  strLower t == strLower NATIVE_TOKEN

/-- Models `get_balance` (lines 291-310).  Total: the Python body is wrapped
in `try/except` returning `0`, so no input raises.  Returns the value
produced together with the chain-client invocations made. -/
def get_balance (env : Env) (ch : Chain) (token_address : Option String) :
    ℚ × List ChainCall :=
  match (get_current_account env).1 with
  | .error _ => (0, [])
  | .ok _account =>
    match token_address with
    | none =>
      match ch.getBalanceNative with
      | .ok q => (q, [ChainCall.getBalanceNative])
      | .error _ => (0, [ChainCall.getBalanceNative])
    | some t =>
      if tokenIsNativeStr t then
        match ch.getBalanceNative with
        | .ok q => (q, [ChainCall.getBalanceNative])
        | .error _ => (0, [ChainCall.getBalanceNative])
      else
        match to_checksum_address t with
        | .error _ => (0, [])
        | .ok _ =>
          match ch.tokenDecimals with
          | .error _ => (0, [ChainCall.tokenDecimals])
          | .ok d =>
            match ch.tokenBalanceRaw with
            | .error _ => (0, [ChainCall.tokenDecimals, ChainCall.tokenBalanceOf])
            | .ok raw =>
              ((raw : ℚ) / (10 : ℚ) ^ d,
                [ChainCall.tokenDecimals, ChainCall.tokenBalanceOf])

-- ===== transfer (lines 312-379) =====

/-- A constructed pending transaction, as built just before signing. -/
inductive BuiltTx where
  | native (nonce : ℕ) (toA : String) (value_wei : ℤ) (gas : ℕ)
      (gasPrice_wei : ℤ) (chainId : ℕ)
  | token (toA : String) (amount_raw : ℤ) (fromAddr : String) (nonce : ℕ)
      (gasPrice_wei : ℤ) (chainId : ℕ)
  deriving DecidableEq

/-- Full observable outcome of one `transfer` call: the returned value or
exception, the chain-client invocations made, and the pending transaction
constructed (if control reached construction). -/
structure TransferTrace where
  result : Except PyErr String
  calls : List ChainCall
  built : Option BuiltTx

/-- The largest wei value `eth_utils`' `to_wei` accepts: 2^256 - 1. -/
def UINT256_MAX : ℚ :=
  115792089237316195423570985008687907853269984665640564039457584007913129639935

/-- Models `web3.to_wei(amount, 'ether')` (eth_utils `currency.to_wei`):
scales by the ether unit value 10^18 exactly and raises `ValueError` whenever
the resulting wei value is negative or exceeds 2^256 - 1 ("Resulting wei
value must be between 1 and 2**256 - 1"); a representable result is truncated
to an integer.  In particular a negative amount can never be turned into a
transaction value. -/
def to_wei_ether (amount : ℚ) : Except PyErr ℤ :=
  if amount * 1000000000000000000 < 0 ∨
      UINT256_MAX < amount * 1000000000000000000 then
    .error (.valueError "Resulting wei value must be between 1 and 2**256 - 1")
  else
    .ok (pyInt (amount * 1000000000000000000))

/-- An amount within range scales to an accepted wei value. -/
theorem to_wei_ether_ok (amount : ℚ) (h0 : 0 ≤ amount)
    (h1 : amount * 1000000000000000000 ≤ UINT256_MAX) :
    to_wei_ether amount = .ok (pyInt (amount * 1000000000000000000)) := by
  have hc : ¬ (amount * 1000000000000000000 < 0 ∨
      UINT256_MAX < amount * 1000000000000000000) := by
    rintro (h | h)
    · exact absurd h (not_lt.mpr (mul_nonneg h0 (by norm_num)))
    · exact absurd h (not_lt.mpr h1)
  unfold to_wei_ether
  rw [if_neg hc]

/-- Native-transfer tail of `transfer` (lines 360-375): build the
`{nonce, to, value, gas, gasPrice, chainId}` dict — evaluating the recipient
checksum and then `to_wei(amount, 'ether')`, either of which raises — then
sign locally and submit. -/
def transferNative (ch : Chain) (_account : Account) (to_address : String)
    (amount : ℚ) (nonce : ℕ) :
    Except PyErr String × List ChainCall × Option BuiltTx :=
  match to_checksum_address to_address with
  | .error e => (.error e, [], none)
  | .ok toAddr =>
    match to_wei_ether amount with
    | .error e => (.error e, [], none)
    | .ok value_wei =>
      let tx := BuiltTx.native nonce toAddr value_wei 21000
        gas_price_wei MONAD_CHAIN_ID
      match ch.sendRaw with
      | .error e => (.error e, [ChainCall.sendRaw], some tx)
      | .ok h =>
        (.ok ("Transaction sent: " ++ get_explorer_link h),
          [ChainCall.sendRaw], some tx)

/-- Code of `transfer` after the nonce fetch (lines 341-375): ERC-20 branch
when a token address is given (Python truthiness: non-empty) and differs from
the native sentinel, else the native branch.  In the ERC-20 branch any
failure of `build_transaction` — including ABI encoding rejecting an
out-of-range raw amount — is an outcome of the `buildTokenTx` oracle. -/
def transferAfterNonce (ch : Chain) (account : Account) (to_address : String)
    (amount : ℚ) (token_address : Option String) (nonce : ℕ) :
    Except PyErr String × List ChainCall × Option BuiltTx :=
  match token_address with
  | none => transferNative ch account to_address amount nonce
  | some t =>
    if t ≠ "" ∧ strLower t ≠ strLower NATIVE_TOKEN then
      match to_checksum_address t with
      | .error e => (.error e, [], none)
      | .ok _tokenAddr =>
        match ch.tokenDecimals with
        | .error e => (.error e, [ChainCall.tokenDecimals], none)
        | .ok d =>
          let amount_raw : ℤ := pyInt (amount * (10 : ℚ) ^ d)
          match to_checksum_address to_address with
          | .error e => (.error e, [ChainCall.tokenDecimals], none)
          | .ok toAddr =>
            match ch.buildTokenTx with
            | .error e =>
              (.error e, [ChainCall.tokenDecimals, ChainCall.buildTokenTx], none)
            | .ok _ =>
              let tx := BuiltTx.token toAddr amount_raw account.address nonce
                gas_price_wei MONAD_CHAIN_ID
              match ch.sendRaw with
              | .error e =>
                (.error e,
                  [ChainCall.tokenDecimals, ChainCall.buildTokenTx, ChainCall.sendRaw],
                  some tx)
              | .ok h =>
                (.ok ("Transaction sent: " ++ get_explorer_link h),
                  [ChainCall.tokenDecimals, ChainCall.buildTokenTx, ChainCall.sendRaw],
                  some tx)
    else
      transferNative ch account to_address amount nonce

/-- Models `transfer` (lines 312-379): resolve account, compute required
balance (gas is added only when `token_address is None`), fetch the balance
via `get_balance`, fail on insufficiency, else fetch the nonce and build,
sign and submit the transaction.  The outer `except` re-raises, so errors
propagate unchanged. -/
def transfer (env : Env) (ch : Chain) (to_address : String) (amount : ℚ)
    (token_address : Option String) : TransferTrace :=
  match (get_current_account env).1 with
  | .error e => ⟨.error e, [], none⟩
  | .ok account =>
    let total_required : ℚ :=
      match token_address with
      | none => amount + gas_cost_eth
      | some _ => amount
    let current_balance := (get_balance env ch token_address).1
    let balCalls := (get_balance env ch token_address).2
    if current_balance < total_required then
      ⟨.error (.valueError ("Insufficient balance. Required: " ++
          toString total_required ++ ", Available: " ++ toString current_balance)),
        balCalls, none⟩
    else
      match ch.getTxCount with
      | .error e => ⟨.error e, balCalls ++ [ChainCall.getTxCount], none⟩
      | .ok nonce =>
        let rest := transferAfterNonce ch account to_address amount token_address nonce
        ⟨rest.1, balCalls ++ ChainCall.getTxCount :: rest.2.1, rest.2.2⟩

-- ===== deposit_funds (lines 383-419) and withdraw_funds (lines 576-613) =====

/-- The fabricated placeholder result `deposit_funds` returns when any
exception is caught (lines 417-419). -/
def depositDemoMsg (amount : ℚ) : String :=
  "[DEMO] Deposit of " ++ toString amount ++ " ETH simulated. TX: " ++
    get_explorer_link ("0x" ++ sha256hex ("deposit" ++ toString amount))

/-- The fabricated placeholder result `withdraw_funds` returns when its inner
bare `except` fires (lines 607-609). -/
def withdrawDemoMsg (amount : ℚ) : String :=
  "[DEMO] Withdrawal of " ++ toString amount ++ " ETH simulated. TX: " ++
    get_explorer_link ("0x" ++ sha256hex ("withdraw" ++ toString amount))

/-- The `try` body of `deposit_funds` (lines 386-413): amount check, account
resolution, nonce fetch, contract-call build, sign, submit. -/
def deposit_funds_inner (env : Env) (ch : Chain) (amount : ℚ) :
    Except PyErr String × List ChainCall :=
  if amount ≤ 0 then
    (.error (.valueError "Amount must be greater than 0"), [])
  else
    match (get_current_account env).1 with
    | .error e => (.error e, [])
    | .ok _account =>
      match ch.getTxCount with
      | .error e => (.error e, [ChainCall.getTxCount])
      | .ok _nonce =>
        match ch.buildContractTx with
        | .error e => (.error e, [ChainCall.getTxCount])
        | .ok _ =>
          match ch.sendRaw with
          | .error e => (.error e, [ChainCall.getTxCount, ChainCall.sendRaw])
          | .ok h =>
            (.ok ("Deposit successful! TX: " ++ get_explorer_link h),
              [ChainCall.getTxCount, ChainCall.sendRaw])

/-- Models `deposit_funds` (lines 383-419): the whole body runs inside a
single `try/except` whose handler returns the `[DEMO]` placeholder string, so
the operation never raises. -/
def deposit_funds (env : Env) (ch : Chain) (amount : ℚ) :
    Except PyErr String × List ChainCall :=
  match deposit_funds_inner env ch amount with
  | (.error _e, calls) => (.ok (depositDemoMsg amount), calls)
  | (.ok s, calls) => (.ok s, calls)

/-- The inner `try` body of `withdraw_funds` (lines 585-605): account
resolution, nonce fetch, contract-call build, sign, submit. -/
def withdraw_funds_inner (env : Env) (ch : Chain) : Except PyErr String × List ChainCall :=
  match (get_current_account env).1 with
  | .error e => (.error e, [])
  | .ok _account =>
    match ch.getTxCount with
    | .error e => (.error e, [ChainCall.getTxCount])
    | .ok _nonce =>
      match ch.buildContractTx with
      | .error e => (.error e, [ChainCall.getTxCount])
      | .ok _ =>
        match ch.sendRaw with
        | .error e => (.error e, [ChainCall.getTxCount, ChainCall.sendRaw])
        | .ok h =>
          (.ok ("Withdrawal successful! TX: " ++ get_explorer_link h),
            [ChainCall.getTxCount, ChainCall.sendRaw])

/-- Models `withdraw_funds` (lines 576-613): the amount check sits in the
outer `try`, whose handler re-raises; everything else sits in an inner `try`
with a bare `except` returning the `[DEMO]` placeholder string. -/
def withdraw_funds (env : Env) (ch : Chain) (amount : ℚ) :
    Except PyErr String × List ChainCall :=
  if amount ≤ 0 then
    (.error (.valueError "Amount must be greater than 0"), [])
  else
    match withdraw_funds_inner env ch with
    | (.error _e, calls) => (.ok (withdrawDemoMsg amount), calls)
    | (.ok s, calls) => (.ok s, calls)

-- ===== decoy generation (lines 461-476, 646-681) =====

/-- One decoy transaction dictionary as constructed in
`_generate_simple_decoys`'s loop body. -/
structure Decoy where
  recipient : String
  amount : ℚ
  timing_offset : ℕ
  decoy_hash : String
  deriving DecidableEq

/-- The random draws one loop iteration of `_generate_simple_decoys`
consumes: `random.uniform(0.3, 3.0)`, 40 random hex characters, and
`random.randint(1, 60)`. -/
structure DecoyRand where
  variation : ℚ
  recipHex : String
  timing : ℕ

/-- Python `round(x, 4)`. -/
def roundTo4 (q : ℚ) : ℚ :=
  (Int.floor (q * 10000 + 1 / 2) : ℚ) / 10000

/-- Models `_generate_simple_decoys` (lines 662-674): the loop builds a
`decoy` dictionary each iteration but never appends it to the `decoys`
accumulator, exactly as in the source, so the initial empty list is
returned. -/
def generate_simple_decoys (rand : ℕ → DecoyRand) (real_amount : ℚ)
    (count : ℕ) : List Decoy :=
  (List.range count).foldl
    (fun decoys i =>
      let r := rand i
      let amount := roundTo4 (real_amount * r.variation)
      let _decoy : Decoy :=
        ⟨"0x" ++ r.recipHex, amount, r.timing,
          "0x" ++ sha256hex ("decoy_" ++ toString i ++ "_" ++ toString amount)⟩
      decoys)
    []

/-- The dictionary `generate_ai_decoys` returns (lines 468-472). -/
structure DecoyReport where
  decoys_generated : ℕ
  decoys : List Decoy
  ai_analysis : String

/-- Models `generate_ai_decoys` (lines 461-476); its `try` body cannot raise,
so the function is total. -/
def generate_ai_decoys (rand : ℕ → DecoyRand) (amount : ℚ) (count : ℕ) :
    DecoyReport :=
  let decoys := generate_simple_decoys rand amount count
  ⟨decoys.length, decoys, "Patterns analyzed for maximum privacy protection"⟩

-- ===== execute_private_payment (lines 421-459) =====

/-- Models `_generate_commitment` (lines 646-650); `nonceDraw` is the
`random.randint(1, 1000000)` draw. -/
def generate_commitment (recipient : String) (amount : ℚ) (nonceDraw : ℕ) :
    String :=
  "0x" ++ sha256hex (recipient ++ toString amount ++ toString nonceDraw)

/-- Models `_calculate_privacy_impact` (lines 676-681):
`int(2 + decoy_count * 1.5 + min(amount * 0.5, 5))`. -/
def calculate_privacy_impact (decoy_count : ℕ) (amount : ℚ) : ℤ :=
  pyInt ((2 : ℚ) + (decoy_count : ℚ) * (3 / 2) + min (amount * (1 / 2)) 5)

/-- Observable outcome of `execute_private_payment`: the returned value or
exception, plus instrumentation recording `len(decoys)` — the decoy count the
success string reports.  The function performs no chain-client call at all
(its Python body touches only local mock helpers), which the absence of a
`Chain` argument makes structural. -/
structure PaymentTrace where
  result : Except PyErr String
  decoys_used : ℕ

/-- Models `execute_private_payment` (lines 421-459): recipient and amount
validation, decoy-count clamping to 4 outside 3..8, then mock commitment,
decoys, transaction hash and privacy impact.  The mock ZK-proof value the
source also draws is dead (never used) and is omitted.  The outer `except`
re-raises. -/
def execute_private_payment (rand : ℕ → DecoyRand) (nonceDraw : ℕ)
    (recipient : String) (amount : ℚ) (_memo : String) (decoy_count : ℤ) :
    PaymentTrace :=
  if is_address recipient = false then
    ⟨.error (.valueError "Invalid recipient address"), 0⟩
  else if amount ≤ 0 then
    ⟨.error (.valueError "Amount must be greater than 0"), 0⟩
  else
    let dc : ℤ := if decoy_count < 3 ∨ 8 < decoy_count then 4 else decoy_count
    let commitment := generate_commitment recipient amount nonceDraw
    let decoys := generate_simple_decoys rand amount dc.toNat
    let mock_tx_hash := "0x" ++ sha256hex (recipient ++ toString amount ++ commitment)
    let privacy_impact := calculate_privacy_impact dc.toNat amount
    ⟨.ok ("Private payment executed! TX: " ++ String.mk (mock_tx_hash.data.take 10) ++
        "... | Decoys: " ++ toString decoys.length ++
        " | Privacy impact: +" ++ toString privacy_impact),
      decoys.length⟩

-- ===== connection bootstrap: _initialize_web3 (lines 85-110) =====

/-- What one bootstrap attempt observes from the chain client: whether
`is_connected()` holds and which chain identifier `eth.chain_id` reports. -/
structure ConnAttempt where
  is_connected : Bool
  chain_id : ℕ

/-- Outcome of the `try` body of one bootstrap attempt (lines 90-104):
raises on unreachability, then on a chain-identifier mismatch, else
succeeds. -/
def attemptOutcome (a : ConnAttempt) : Except PyErr Unit :=
  if a.is_connected = false then
    .error (.monadConnectionError "Failed to connect to Monad network")
  else if a.chain_id ≠ MONAD_CHAIN_ID then
    .error (.monadConnectionError ("Connected to wrong chain. Expected " ++
      toString MONAD_CHAIN_ID ++ ", got " ++ toString a.chain_id))
  else
    .ok ()

/-- Observable outcome of `_initialize_web3`: final result, number of
attempts made, and number of `time.sleep(1)` delays taken (one between each
pair of consecutive attempts). -/
structure InitTrace where
  outcome : Except PyErr Unit
  attempts : ℕ
  sleeps : ℕ

/-- Models `_initialize_web3` (lines 85-110): `for attempt in range(3)`
unrolled.  Any exception from an attempt — including the chain-identifier
mismatch — is caught; the first two failures sleep and retry, the third is
re-raised wrapped as the fatal initialization error. -/
def initialize_web3 (oracle : ℕ → ConnAttempt) : InitTrace :=
  match attemptOutcome (oracle 0) with
  | .ok _ => ⟨.ok (), 1, 0⟩
  | .error _ =>
    match attemptOutcome (oracle 1) with
    | .ok _ => ⟨.ok (), 2, 1⟩
    | .error _ =>
      match attemptOutcome (oracle 2) with
      | .ok _ => ⟨.ok (), 3, 2⟩
      | .error e =>
        ⟨.error (.monadConnectionError
            ("Failed to initialize Web3 after 3 attempts: " ++ pyErrMsg e)),
          3, 2⟩

-- ===== action registry and dispatcher (lines 122-205, 257-281, 696-718) =====

/-- Declared Python type of an action parameter (`str`, `float`, `int`). -/
inductive PType where
  | str
  | float
  | int
  deriving DecidableEq

/-- One parameter declaration (`ActionParameter(name, required, type,
description)`). -/
structure ActionParameter where
  name : String
  required : Bool
  ptype : PType
  description : String
  deriving DecidableEq

/-- One registry entry (`Action(name, parameters, description)` in the
source; named `ActionDecl` here because Mathlib already declares `Action`). -/
structure ActionDecl where
  name : String
  parameters : List ActionParameter
  description : String
  deriving DecidableEq

/-- The registry built by `register_actions` (lines 122-205), verbatim. -/
def actionsRegistry : List ActionDecl := [
  ⟨"get-balance",
    [⟨"token_address", false, .str, "Token address (optional, native token if not provided)"⟩],
    "Get native or token balance"⟩,
  ⟨"transfer",
    [⟨"to_address", true, .str, "Recipient address"⟩,
     ⟨"amount", true, .float, "Amount to transfer"⟩,
     ⟨"token_address", false, .str, "Token address (optional, native token if not provided)"⟩],
    "Send native token or tokens"⟩,
  ⟨"get-address", [], "Get your Monad wallet address"⟩,
  ⟨"deposit-funds",
    [⟨"amount", true, .float, "Amount of ETH to deposit to PrivatePay vault"⟩],
    "Deposit ETH funds to PrivatePay vault for private payments"⟩,
  ⟨"execute-private-payment",
    [⟨"recipient", true, .str, "Recipient address"⟩,
     ⟨"amount", true, .float, "Amount to send privately"⟩,
     ⟨"memo", false, .str, "Optional encrypted memo"⟩,
     ⟨"decoy_count", false, .int, "Number of decoy transactions (3-8)"⟩],
    "Execute a private payment with AI-generated decoy transactions"⟩,
  ⟨"generate-ai-decoys",
    [⟨"amount", true, .float, "Base amount for decoy generation"⟩,
     ⟨"count", false, .int, "Number of decoys to generate (default 4)"⟩],
    "Generate AI-powered realistic decoy transactions"⟩,
  ⟨"get-privacy-score",
    [⟨"user_address", false, .str, "User address (optional, uses your address if not provided)"⟩],
    "Get privacy score (0-100) for a user address"⟩,
  ⟨"get-privacy-metrics",
    [⟨"user_address", false, .str, "User address (optional, uses your address if not provided)"⟩],
    "Get detailed privacy metrics including transaction count, decoys, and tracking resistance"⟩,
  ⟨"get-global-stats", [], "Get global PrivatePay network statistics"⟩,
  ⟨"withdraw-funds",
    [⟨"amount", true, .float, "Amount to withdraw from PrivatePay vault"⟩],
    "Withdraw funds from PrivatePay vault"⟩,
  ⟨"get-contract-info", [], "Get PrivatePay contract addresses and connection status"⟩]

/-- Registry lookup (`action_name not in self.actions`). -/
def lookupAction (action_name : String) : Option ActionDecl :=
  actionsRegistry.find? (fun a => a.name == action_name)

/-- Models `is_configured` (lines 257-281): key present (Python truthiness),
chain client reports itself connected, account resolvable, raw balance
fetchable; any exception yields `False`. -/
def is_configured (env : Env) (ch : Chain) : Bool :=
  match env.privateKey with
  | none => false
  | some k =>
    if k = "" then false
    else if ch.isConnected = false then false
    else
      match (get_current_account env).1 with
      | .error _ => false
      | .ok _ =>
        match ch.getBalanceNative with
        | .error _ => false
        | .ok _ => true

/-- A raw caller-supplied argument value. -/
inductive RawVal where
  | str (s : String)
  | num (q : ℚ)
  | int (n : ℤ)
  deriving DecidableEq

/-- Lookup of a named argument among the supplied keyword arguments. -/
def lookupParam (kwargs : List (String × RawVal)) (n : String) : Option RawVal :=
  (kwargs.find? (fun p => p.1 == n)).map (fun p => p.2)

/-- Modelled from the spec: whether a supplied value converts to the declared
parameter type (spec 4.4 step 3, "convertible to its declared semantic type
(numeric parse ...)"); an integer value is a valid decimal. -/
def convertible : RawVal → PType → Bool
  | .str _, .str => true
  | .num _, .float => true
  | .int _, .float => true
  | .int _, .int => true
  | _, _ => false

/-- A parameter declaration violated by the supplied arguments: required but
absent, or present with an inconvertible value. -/
def paramBad (kwargs : List (String × RawVal)) (p : ActionParameter) : Bool :=
  match lookupParam kwargs p.name with
  | none => p.required
  | some v => !(convertible v p.ptype)

/-- The descriptive message produced for one bad parameter. -/
def badParamMsg (kwargs : List (String × RawVal)) (p : ActionParameter) : String :=
  match lookupParam kwargs p.name with
  | none => "Missing required parameter: " ++ p.name
  | some _ => "Invalid value for parameter: " ++ p.name

/-- Modelled from the spec: `Action.validate_params`, defined in
`src/connections/base_connection.py`, which is not among the provided source
files (only its caller `perform_action` is).  Spec 4.4 step 3: every
required parameter must be present and every present parameter convertible;
"on failure collect a descriptive message per bad parameter and fail with
`InvalidParametersError` carrying the full list (not just the first)" — one
message per violated declaration, in declaration order. -/
def validate_params (a : ActionDecl) (kwargs : List (String × RawVal)) : List String :=
  (a.parameters.filter (fun p => paramBad kwargs p)).map
    (fun p => badParamMsg kwargs p)

/-- Models `perform_action` (lines 696-718).  `ops` is the oracle for the
bound operation `getattr(self, method_name)(**kwargs)`, keyed by the
transformed method name.  Second component: whether the bound operation was
invoked.  The final `except` logs and re-raises the operation's exception
unchanged. -/
def perform_action (env : Env) (ch : Chain)
    (ops : String → List (String × RawVal) → Except PyErr String)
    (action_name : String) (kwargs : List (String × RawVal)) :
    Except PyErr String × Bool :=
  match lookupAction action_name with
  | none => (.error (.keyError ("Unknown action: " ++ action_name)), false)
  | some action =>
    if is_configured env ch = false then
      (.error (.monadConnectionError "Monad connection is not properly configured"), false)
    else
      let errors := validate_params action kwargs
      if errors.isEmpty = false then
        (.error (.valueError ("Invalid parameters: " ++
            String.intercalate (", ") errors)), false)
      else
        (ops (action_name.map (fun c => if c = '-' then '_' else c)) kwargs, true)

-- ===== concrete fixtures used by witnesses and counterexamples =====

/-- A syntactically well-formed private key. -/
def goodKey : String := "0x" ++ String.mk (List.replicate 64 ('a'))

def envGood : Env := ⟨some goodKey⟩

def envNoKey : Env := ⟨none⟩

def acctGood : Account := ⟨"0x" ++ sha256hex goodKey⟩

/-- A syntactically valid recipient address. -/
def addrA : String := "0x" ++ String.mk (List.replicate 40 ('a'))

/-- A fully healthy chain oracle with native balance 5. -/
def chainGood : Chain :=
  ⟨true, .ok 5, .ok 18, .ok 0, .ok 7, .ok (), .ok (), .ok ("0xdeadbeef")⟩

/-- Healthy chain oracle whose account genuinely holds zero. -/
def chainZero : Chain := { chainGood with getBalanceNative := .ok 0 }

/-- Healthy chain oracle with native balance exactly 1. -/
def chainBal1 : Chain := { chainGood with getBalanceNative := .ok 1 }

/-- Chain oracle whose raw-transaction submission fails. -/
def chainSendFail : Chain :=
  { chainGood with sendRaw := .error (.chainError ("transaction rejected")) }

/-- Bootstrap oracle: always reachable but reporting chain id 1. -/
def wrongChainOracle : ℕ → ConnAttempt := fun _ => ⟨true, 1⟩

/-- Bootstrap oracle: healthy from the first attempt. -/
def okOracle : ℕ → ConnAttempt := fun _ => ⟨true, MONAD_CHAIN_ID⟩

/-- Bootstrap oracle: unreachable on attempt 0, healthy afterwards. -/
def retryOracle : ℕ → ConnAttempt := fun i => if i = 0 then ⟨false, 0⟩ else ⟨true, MONAD_CHAIN_ID⟩

def rand0 : ℕ → DecoyRand := fun _ => ⟨1, String.mk (List.replicate 40 ('b')), 1⟩

def ops0 : String → List (String × RawVal) → Except PyErr String := fun _ _ => .ok ("done")

example : (get_current_account envGood).1 = .ok acctGood := by decide
example : is_configured envGood chainGood = true := by decide
example : is_address addrA = true := by decide

-- ===== shared helper lemmas =====

/-- Folding a function that returns its accumulator unchanged yields the
initial accumulator. -/
theorem foldl_keep {α β : Type} (l : List β) (a : α) :
    l.foldl (fun x _ => x) a = a := by
  induction l generalizing a with
  | nil => rfl
  | cons b t ih => exact ih a

/-- String append is associative. -/
theorem strAppendAssoc (a b c : String) : a ++ b ++ c = a ++ (b ++ c) := by
  cases a with
  | mk da =>
    cases b with
    | mk db =>
      cases c with
      | mk dc =>
        show String.mk (da ++ db ++ dc) = String.mk (da ++ (db ++ dc))
        rw [List.append_assoc]

/-- `get_balance` never performs a nonce fetch. -/
theorem get_balance_no_txcount (env : Env) (ch : Chain) (tok : Option String) :
    ChainCall.getTxCount ∉ (get_balance env ch tok).2 := by
  unfold get_balance
  cases h : (get_current_account env).1 with
  | error e => simp
  | ok a =>
    cases tok with
    | none =>
      cases ch.getBalanceNative with
      | ok q => simp
      | error e => simp
    | some t =>
      by_cases hn : tokenIsNativeStr t
      · simp only [hn, if_true]
        cases ch.getBalanceNative with
        | ok q => simp
        | error e => simp
      · simp only [hn, if_false, Bool.false_eq_true]
        cases to_checksum_address t with
        | error e => simp
        | ok u =>
          cases ch.tokenDecimals with
          | error e => simp
          | ok d =>
            cases ch.tokenBalanceRaw with
            | error e => simp
            | ok raw => simp

/-- The decoy loop returns its accumulator unchanged, hence the empty list. -/
theorem generate_simple_decoys_eq_nil (rand : ℕ → DecoyRand) (real_amount : ℚ)
    (count : ℕ) : generate_simple_decoys rand real_amount count = [] := by
  show (List.range count).foldl (fun x _ => x) [] = []
  exact foldl_keep _ _

/-- Merging the string literals around the rendered decoy count `0`. -/
theorem payment_string_shape (T P : String) :
    "Private payment executed! TX: " ++ T ++ "... | Decoys: " ++ toString (0 : ℕ) ++
        " | Privacy impact: +" ++ P =
      ("Private payment executed! TX: " ++ T) ++
        ("... | Decoys: 0 | Privacy impact: +" ++ P) := by
  have hz : toString (0 : ℕ) = "0" := by decide
  rw [hz]
  rw [strAppendAssoc ("Private payment executed! TX: " ++ T) ("... | Decoys: ") ("0")]
  have h1 : ("... | Decoys: " ++ "0" : String) = "... | Decoys: 0" := by decide
  rw [h1]
  rw [strAppendAssoc ("Private payment executed! TX: " ++ T) ("... | Decoys: 0")
    (" | Privacy impact: +")]
  have h2 : ("... | Decoys: 0" ++ " | Privacy impact: +" : String) =
      "... | Decoys: 0 | Privacy impact: +" := by decide
  rw [h2]
  rw [strAppendAssoc ("Private payment executed! TX: " ++ T)
    ("... | Decoys: 0 | Privacy impact: +") P]

/-- Claim C10: for every amount and every count, `_generate_simple_decoys`
returns the empty list (the decoy dictionaries built in its loop are never
appended), so `generate_ai_decoys` reports `decoys_generated = 0` and the
success string of `execute_private_payment` always reports `Decoys: 0`,
regardless of the requested decoy count. -/
theorem c10_decoys_always_empty (rand : ℕ → DecoyRand) (amount : ℚ) (count : ℕ)
    (nonceDraw : ℕ) (recipient memo : String) (dc : ℤ)
    (haddr : is_address recipient = true) (hamt : 0 < amount) :
    generate_simple_decoys rand amount count = []
    ∧ (generate_ai_decoys rand amount count).decoys_generated = 0
    ∧ (execute_private_payment rand nonceDraw recipient amount memo dc).decoys_used = 0
    ∧ (execute_private_payment rand nonceDraw recipient amount memo dc).result =
        .ok (("Private payment executed! TX: " ++
            String.mk (("0x" ++ sha256hex (recipient ++ toString amount ++
              generate_commitment recipient amount nonceDraw)).data.take 10)) ++
          ("... | Decoys: 0 | Privacy impact: +" ++
            toString (calculate_privacy_impact
              (if dc < 3 ∨ 8 < dc then (4 : ℤ) else dc).toNat amount))) := by
  have hnamt : ¬ (amount ≤ 0) := not_le.mpr hamt
  refine ⟨generate_simple_decoys_eq_nil rand amount count, ?_, ?_, ?_⟩
  · unfold generate_ai_decoys
    rw [generate_simple_decoys_eq_nil]
    rfl
  · unfold execute_private_payment
    rw [haddr]
    simp only [Bool.true_eq_false, if_false, hnamt, if_neg, if_false]
    rw [generate_simple_decoys_eq_nil]
    rfl
  · unfold execute_private_payment
    rw [haddr]
    simp only [Bool.true_eq_false, if_false, hnamt, if_neg, if_false]
    rw [generate_simple_decoys_eq_nil]
    simp only [List.length_nil]
    rw [payment_string_shape]

/-- Witness for C10 at a concrete valid input. -/
theorem c10_decoys_always_empty_witness :
    generate_simple_decoys rand0 1 6 = []
    ∧ (execute_private_payment rand0 1 addrA 1 ("") 6).decoys_used = 0 :=
  ⟨(c10_decoys_always_empty rand0 1 6 1 addrA ("") 6 (by decide) (by decide)).1,
   (c10_decoys_always_empty rand0 1 6 1 addrA ("") 6 (by decide) (by decide)).2.2.1⟩

/-- Claim C9: `get_balance` never raises — it is a total function here, in
direct correspondence with the source's catch-all handler — and on every
failure path (unresolvable signing key, failing native-balance RPC, failing
token `decimals`/`balanceOf` call) it returns 0, which is the same value a
genuinely empty account yields, so a failed query is indistinguishable from
a genuine zero balance at the public interface. -/
theorem c9_get_balance_never_raises (env : Env) (ch : Chain) (tok : Option String) :
    (isOkE (get_current_account env).1 = false → get_balance env ch tok = (0, []))
    ∧ (isErrE ch.getBalanceNative = true → (get_balance env ch none).1 = 0)
    ∧ (∀ t, tokenIsNativeStr t = true → isErrE ch.getBalanceNative = true →
        (get_balance env ch (some t)).1 = 0)
    ∧ (∀ t, tokenIsNativeStr t = false →
        (isErrE ch.tokenDecimals = true ∨ isErrE ch.tokenBalanceRaw = true) →
        (get_balance env ch (some t)).1 = 0)
    ∧ get_balance envGood chainZero none = (0, [ChainCall.getBalanceNative]) := by
  refine ⟨?_, ?_, ?_, ?_, by decide⟩
  · intro h
    unfold get_balance
    cases hacc : (get_current_account env).1 with
    | error e => rfl
    | ok a => rw [hacc] at h; simp [isOkE] at h
  · intro h
    unfold get_balance
    cases hacc : (get_current_account env).1 with
    | error e => rfl
    | ok a =>
      cases hb : ch.getBalanceNative with
      | error e => rfl
      | ok q => rw [hb] at h; simp [isErrE] at h
  · intro t ht h
    unfold get_balance
    cases hacc : (get_current_account env).1 with
    | error e => rfl
    | ok a =>
      simp only [ht, if_true]
      cases hb : ch.getBalanceNative with
      | error e => rfl
      | ok q => rw [hb] at h; simp [isErrE] at h
  · intro t ht h
    unfold get_balance
    cases hacc : (get_current_account env).1 with
    | error e => rfl
    | ok a =>
      simp only [ht, Bool.false_eq_true, if_false]
      cases hck : to_checksum_address t with
      | error e => rfl
      | ok u =>
        cases hd : ch.tokenDecimals with
        | error e => rfl
        | ok d =>
          cases hr : ch.tokenBalanceRaw with
          | error e => rfl
          | ok raw =>
            rw [hd, hr] at h
            cases h with
            | inl h => simp [isErrE] at h
            | inr h => simp [isErrE] at h

/-- Witness for C9: an unconfigured key yields 0 with no chain call, exactly
like a healthy zero-balance account. -/
theorem c9_get_balance_never_raises_witness :
    get_balance envNoKey chainGood none = (0, [])
    ∧ get_balance envGood chainZero none = (0, [ChainCall.getBalanceNative]) :=
  ⟨(c9_get_balance_never_raises envNoKey chainGood none).1 (by decide),
   (c9_get_balance_never_raises envGood chainZero none).2.2.2.2⟩

/-- Claim C5 is FALSE on the code: for a malformed configured key,
`_get_current_account` performs no syntactic validation of its own — the raw
key "zz" is handed directly to the cryptographic derivation routine (second
component `true`), and the failure surfaced is the derivation library's own
error, not a connection-level configuration error produced beforehand. -/
theorem c5_counterexample :
    get_current_account ⟨some ("zz")⟩ =
      (.error (.keyDerivationError "The private key must be exactly 32 bytes long"),
        true) := by
  decide

/-- Claim C5 (amended): `_get_current_account` fails with the connection's
configuration error reporting a missing key when no key (or an empty key) is
configured, without invoking derivation; any other configured key — malformed
or not — is handed unvalidated to the cryptographic derivation routine, whose
own outcome (including its own malformed-key error) is what propagates. -/
theorem c5_account_resolution (env : Env) :
    ((env.privateKey = none ∨ env.privateKey = some ("")) →
      get_current_account env =
        (.error (.monadConnectionError "No wallet private key configured"), false))
    ∧ (∀ k, env.privateKey = some k → k ≠ "" →
        get_current_account env = (from_key k, true)) := by
  constructor
  · intro h
    unfold get_current_account
    cases h with
    | inl h => rw [h]
    | inr h => rw [h]; rfl
  · intro k hk hne
    unfold get_current_account
    rw [hk]
    simp only [hne, if_neg, if_false]

/-- Witness for C5 (amended) at concrete inputs. -/
theorem c5_account_resolution_witness :
    get_current_account envNoKey =
      (.error (.monadConnectionError "No wallet private key configured"), false)
    ∧ get_current_account envGood = (from_key goodKey, true) :=
  ⟨(c5_account_resolution envNoKey).1 (Or.inl rfl),
   (c5_account_resolution envGood).2 goodKey rfl (by decide)⟩

/-- Claim C6 is FALSE on the code: with every attempt connected but reporting
chain id 1, the first attempt raises the wrong-network error, yet bootstrap
goes on to make all 3 attempts (the mismatch is caught by the retry loop) and
the surfaced failure is the generic initialization error wrapping the
mismatch message, not an unretried fatal wrong-network failure. -/
theorem c6_counterexample :
    attemptOutcome (wrongChainOracle 0) =
      .error (.monadConnectionError ("Connected to wrong chain. Expected " ++
        toString MONAD_CHAIN_ID ++ ", got " ++ toString (1 : ℕ)))
    ∧ (initialize_web3 wrongChainOracle).attempts = 3
    ∧ (initialize_web3 wrongChainOracle).outcome =
        .error (.monadConnectionError
          ("Failed to initialize Web3 after 3 attempts: Connected to wrong chain. Expected 10143, got 1")) := by
  refine ⟨by decide, by decide, by decide⟩

/-- Claim C6 (amended): a chain-identifier mismatch raises the wrong-network
error inside the retry loop's `try`, so it is retried like any other failure:
when every attempt is connected but on the wrong network, all 3 attempts are
made (with 2 sleeps between them) and the mismatch surfaces only as the fatal
initialization error wrapping the last attempt's mismatch message. -/
theorem c6_mismatch_retried (oracle : ℕ → ConnAttempt)
    (h : ∀ i, i < 3 →
      (oracle i).is_connected = true ∧ (oracle i).chain_id ≠ MONAD_CHAIN_ID) :
    initialize_web3 oracle =
      ⟨.error (.monadConnectionError
        ("Failed to initialize Web3 after 3 attempts: " ++
          ("Connected to wrong chain. Expected " ++ toString MONAD_CHAIN_ID ++
            ", got " ++ toString ((oracle 2).chain_id)))), 3, 2⟩ := by
  have hout : ∀ i, i < 3 → attemptOutcome (oracle i) =
      .error (.monadConnectionError ("Connected to wrong chain. Expected " ++
        toString MONAD_CHAIN_ID ++ ", got " ++ toString ((oracle i).chain_id))) := by
    intro i hi
    obtain ⟨hc, hid⟩ := h i hi
    unfold attemptOutcome
    rw [hc]
    simp only [Bool.true_eq_false, if_false]
    rw [if_pos hid]
  unfold initialize_web3
  rw [hout 0 (by norm_num), hout 1 (by norm_num), hout 2 (by norm_num)]
  rfl

/-- Witness for C6 (amended) at the concrete wrong-network oracle. -/
theorem c6_mismatch_retried_witness :
    initialize_web3 wrongChainOracle =
      ⟨.error (.monadConnectionError
        ("Failed to initialize Web3 after 3 attempts: " ++
          ("Connected to wrong chain. Expected " ++ toString MONAD_CHAIN_ID ++
            ", got " ++ toString ((wrongChainOracle 2).chain_id)))), 3, 2⟩ :=
  c6_mismatch_retried wrongChainOracle (fun i _ => ⟨rfl, by
    show (1 : ℕ) ≠ MONAD_CHAIN_ID
    decide⟩)

/-- Claim C7: connection bootstrap makes at least 1 and at most 3 attempts,
sleeps exactly once between consecutive attempts (sleeps = attempts - 1), a
successful attempt short-circuits the remaining ones, and exhausting all 3
attempts raises the fatal initialization error. -/
theorem c7_bootstrap_retries (oracle : ℕ → ConnAttempt) :
    (1 ≤ (initialize_web3 oracle).attempts ∧ (initialize_web3 oracle).attempts ≤ 3)
    ∧ (initialize_web3 oracle).sleeps + 1 = (initialize_web3 oracle).attempts
    ∧ (attemptOutcome (oracle 0) = .ok () → initialize_web3 oracle = ⟨.ok (), 1, 0⟩)
    ∧ (attemptOutcome (oracle 0) ≠ .ok () → attemptOutcome (oracle 1) = .ok () →
        initialize_web3 oracle = ⟨.ok (), 2, 1⟩)
    ∧ ((∀ i, i < 3 → attemptOutcome (oracle i) ≠ .ok ()) →
        ∃ m, initialize_web3 oracle =
          ⟨.error (.monadConnectionError
            ("Failed to initialize Web3 after 3 attempts: " ++ m)), 3, 2⟩) := by
  cases h0 : attemptOutcome (oracle 0) with
  | ok u =>
    have hres : initialize_web3 oracle = ⟨.ok (), 1, 0⟩ := by
      unfold initialize_web3
      rw [h0]
    rw [hres]
    refine ⟨⟨le_refl 1, by norm_num⟩, rfl, fun _ => rfl, ?_, ?_⟩
    · intro hne _
      cases u
      exact (hne rfl).elim
    · intro hall
      cases u
      exact ((hall 0 (by norm_num)) h0).elim
  | error e0 =>
    cases h1 : attemptOutcome (oracle 1) with
    | ok u =>
      have hres : initialize_web3 oracle = ⟨.ok (), 2, 1⟩ := by
        unfold initialize_web3
        rw [h0, h1]
      rw [hres]
      refine ⟨⟨by norm_num, by norm_num⟩, rfl, ?_, fun _ _ => rfl, ?_⟩
      · intro h
        exact Except.noConfusion h
      · intro hall
        cases u
        exact ((hall 1 (by norm_num)) h1).elim
    | error e1 =>
      cases h2 : attemptOutcome (oracle 2) with
      | ok u =>
        have hres : initialize_web3 oracle = ⟨.ok (), 3, 2⟩ := by
          unfold initialize_web3
          rw [h0, h1, h2]
        rw [hres]
        refine ⟨⟨by norm_num, by norm_num⟩, rfl, ?_, ?_, ?_⟩
        · intro h
          exact Except.noConfusion h
        · intro _ h
          exact Except.noConfusion h
        · intro hall
          cases u
          exact ((hall 2 (by norm_num)) h2).elim
      | error e2 =>
        have hres : initialize_web3 oracle =
            ⟨.error (.monadConnectionError
              ("Failed to initialize Web3 after 3 attempts: " ++ pyErrMsg e2)), 3, 2⟩ := by
          unfold initialize_web3
          rw [h0, h1, h2]
        rw [hres]
        refine ⟨⟨by norm_num, by norm_num⟩, rfl, ?_, ?_, fun _ => ⟨pyErrMsg e2, rfl⟩⟩
        · intro h
          exact Except.noConfusion h
        · intro _ h
          exact Except.noConfusion h

/-- Witness for C7: first-attempt success short-circuits; a failure on the
first attempt alone leads to success on the second with one sleep. -/
theorem c7_bootstrap_retries_witness :
    initialize_web3 okOracle = ⟨.ok (), 1, 0⟩
    ∧ initialize_web3 retryOracle = ⟨.ok (), 2, 1⟩ :=
  ⟨(c7_bootstrap_retries okOracle).2.2.1 (by decide),
   (c7_bootstrap_retries retryOracle).2.2.2.1 (by decide) (by decide)⟩

/-- When the raw-send RPC fails, the deposit `try` body ends in an error. -/
theorem deposit_inner_err_of_send (env : Env) (ch : Chain) (amount : ℚ)
    (h : isErrE ch.sendRaw = true) :
    isErrE (deposit_funds_inner env ch amount).1 = true := by
  unfold deposit_funds_inner
  by_cases ha : amount ≤ 0
  · rw [if_pos ha]
    rfl
  · rw [if_neg ha]
    cases (get_current_account env).1 with
    | error e => rfl
    | ok a =>
      cases ch.getTxCount with
      | error e => rfl
      | ok n =>
        cases ch.buildContractTx with
        | error e => rfl
        | ok u =>
          cases hs : ch.sendRaw with
          | error e => rfl
          | ok s => rw [hs] at h; simp [isErrE] at h

/-- When the raw-send RPC fails, the withdraw inner `try` body ends in an
error. -/
theorem withdraw_inner_err_of_send (env : Env) (ch : Chain)
    (h : isErrE ch.sendRaw = true) :
    isErrE (withdraw_funds_inner env ch).1 = true := by
  unfold withdraw_funds_inner
  cases (get_current_account env).1 with
  | error e => rfl
  | ok a =>
    cases ch.getTxCount with
    | error e => rfl
    | ok n =>
      cases ch.buildContractTx with
      | error e => rfl
      | ok u =>
        cases hs : ch.sendRaw with
        | error e => rfl
        | ok s => rw [hs] at h; simp [isErrE] at h

/-- Claim C1 is FALSE on the code: with a healthy configuration but a chain
client whose raw-transaction submission fails, `deposit_funds` returns an
ordinary (non-error) result — the fabricated `[DEMO] ... simulated`
placeholder string — instead of surfacing the chain-level failure as an
error. -/
theorem c1_counterexample :
    isErrE chainSendFail.sendRaw = true
    ∧ (deposit_funds envGood chainSendFail 1).1 = .ok (depositDemoMsg 1)
    ∧ isOkE (deposit_funds envGood chainSendFail 1).1 = true := by
  refine ⟨by decide, by decide, by decide⟩

/-- Claim C1 (amended): chain-level failures in `deposit_funds` and
`withdraw_funds` are caught and silently downgraded to fabricated `[DEMO]`
placeholder success strings: `deposit_funds` never returns an error at all,
and `withdraw_funds` surfaces only the amount-positivity error — whenever the
raw-transaction submission fails, both return the `[DEMO]` placeholder. -/
theorem c1_demo_fallback (env : Env) (ch : Chain) (amount : ℚ) :
    isOkE (deposit_funds env ch amount).1 = true
    ∧ (isErrE ch.sendRaw = true →
        (deposit_funds env ch amount).1 = .ok (depositDemoMsg amount))
    ∧ (0 < amount → isOkE (withdraw_funds env ch amount).1 = true)
    ∧ (0 < amount → isErrE ch.sendRaw = true →
        (withdraw_funds env ch amount).1 = .ok (withdrawDemoMsg amount)) := by
  have hna : ∀ h : 0 < amount, ¬ (amount ≤ 0) := fun h => not_le.mpr h
  refine ⟨?_, ?_, ?_, ?_⟩
  · unfold deposit_funds
    rcases hin : deposit_funds_inner env ch amount with ⟨r, calls⟩
    cases r with
    | error e => rfl
    | ok s => rfl
  · intro hs
    have herr := deposit_inner_err_of_send env ch amount hs
    unfold deposit_funds
    rcases hin : deposit_funds_inner env ch amount with ⟨r, calls⟩
    cases r with
    | error e => rfl
    | ok s => rw [hin] at herr; simp [isErrE] at herr
  · intro hpos
    unfold withdraw_funds
    rw [if_neg (hna hpos)]
    rcases hin : withdraw_funds_inner env ch with ⟨r, calls⟩
    cases r with
    | error e => rfl
    | ok s => rfl
  · intro hpos hs
    have herr := withdraw_inner_err_of_send env ch hs
    unfold withdraw_funds
    rw [if_neg (hna hpos)]
    rcases hin : withdraw_funds_inner env ch with ⟨r, calls⟩
    cases r with
    | error e => rfl
    | ok s => rw [hin] at herr; simp [isErrE] at herr

/-- Witness for C1 (amended) at a concrete failing-send chain. -/
theorem c1_demo_fallback_witness :
    isOkE (deposit_funds envGood chainSendFail 1).1 = true
    ∧ (withdraw_funds envGood chainSendFail 1).1 = .ok (withdrawDemoMsg 1) :=
  ⟨(c1_demo_fallback envGood chainSendFail 1).1,
   (c1_demo_fallback envGood chainSendFail 1).2.2.2 (by decide) (by decide)⟩

/-- If `get_balance` made no chain call (with a resolvable account), the call
was a token query that failed address checksumming, and the value is 0. -/
theorem get_balance_calls_empty (env : Env) (ch : Chain) (tok : Option String)
    (a : Account) (hacc : (get_current_account env).1 = .ok a)
    (h : (get_balance env ch tok).2 = []) :
    (get_balance env ch tok).1 = 0 ∧ ∃ t, tok = some t := by
  unfold get_balance at h ⊢
  simp only [hacc] at h ⊢
  cases tok with
  | none =>
    cases hb : ch.getBalanceNative with
    | ok q => rw [hb] at h; simp at h
    | error e => rw [hb] at h; simp at h
  | some t =>
    refine ⟨?_, ⟨t, rfl⟩⟩
    by_cases hn : tokenIsNativeStr t
    · simp only [hn, if_true] at h
      cases hb : ch.getBalanceNative with
      | ok q => rw [hb] at h; simp at h
      | error e => rw [hb] at h; simp at h
    · simp only [hn, Bool.false_eq_true, if_false] at h ⊢
      cases hck : to_checksum_address t with
      | error e => rfl
      | ok u =>
        cases hd : ch.tokenDecimals with
        | error e => rfl
        | ok d =>
          cases hr : ch.tokenBalanceRaw with
          | error e => rfl
          | ok raw => simp [hck, hd, hr] at h

/-- Claim C2 is FALSE on the code as stated: calling `transfer` with the
native-token sentinel as `token_address` executes a NATIVE-asset transfer
(the pending transaction built is the native one, and the balance fetched is
the native balance), yet the pre-check requires only `amount` — gas is added
only when `token_address is None`.  With balance exactly 1 and amount 1 the
call proceeds to the nonce fetch and submits, although 1 < 1 + 0.00105. -/
theorem c2_counterexample :
    (1 : ℚ) < 1 + gas_cost_eth
    ∧ (get_balance envGood chainBal1 (some NATIVE_TOKEN)).1 =
        (get_balance envGood chainBal1 none).1
    ∧ (transfer envGood chainBal1 addrA 1 (some NATIVE_TOKEN)).built =
        some (BuiltTx.native 7 addrA (pyInt ((1 : ℚ) * 1000000000000000000)) 21000
          gas_price_wei MONAD_CHAIN_ID)
    ∧ ChainCall.getTxCount ∈ (transfer envGood chainBal1 addrA 1 (some NATIVE_TOKEN)).calls
    ∧ isOkE (transfer envGood chainBal1 addrA 1 (some NATIVE_TOKEN)).result = true := by
  have hacc : (get_current_account envGood).1 = .ok acctGood := by decide
  have hbal : (get_balance envGood chainBal1 (some NATIVE_TOKEN)).1 = 1 := by decide
  have hnl : ¬ ((get_balance envGood chainBal1 (some NATIVE_TOKEN)).1 < 1) := by
    rw [hbal]
    exact lt_irrefl 1
  have hwei : to_wei_ether 1 = .ok (pyInt ((1 : ℚ) * 1000000000000000000)) :=
    to_wei_ether_ok 1 (by norm_num) (by norm_num [UINT256_MAX])
  have hck : to_checksum_address addrA = .ok addrA := by decide
  have hafter : transferAfterNonce chainBal1 acctGood addrA 1 (some NATIVE_TOKEN) 7 =
      (.ok ("Transaction sent: " ++ get_explorer_link ("0xdeadbeef")),
        [ChainCall.sendRaw],
        some (BuiltTx.native 7 addrA (pyInt ((1 : ℚ) * 1000000000000000000)) 21000
          gas_price_wei MONAD_CHAIN_ID)) := by
    simp only [transferAfterNonce]
    rw [if_neg (by decide :
      ¬ (NATIVE_TOKEN ≠ "" ∧ strLower NATIVE_TOKEN ≠ strLower NATIVE_TOKEN))]
    unfold transferNative
    simp only [hck, hwei]
    rfl
  have htr : transfer envGood chainBal1 addrA 1 (some NATIVE_TOKEN) =
      ⟨.ok ("Transaction sent: " ++ get_explorer_link ("0xdeadbeef")),
        (get_balance envGood chainBal1 (some NATIVE_TOKEN)).2 ++
          ChainCall.getTxCount :: [ChainCall.sendRaw],
        some (BuiltTx.native 7 addrA (pyInt ((1 : ℚ) * 1000000000000000000)) 21000
          gas_price_wei MONAD_CHAIN_ID)⟩ := by
    unfold transfer
    simp only [hacc]
    rw [if_neg hnl]
    simp only [show chainBal1.getTxCount = Except.ok 7 from rfl, hafter]
  refine ⟨by norm_num [gas_cost_eth], by decide, ?_, ?_, ?_⟩
  · rw [htr]
  · rw [htr]
    decide
  · rw [htr]
    rfl

/-- Claim C2 (amended): with a resolvable account, writing R for the required
balance — `amount + 0.00105` when no token address is supplied, and exactly
`amount` whenever one is supplied (including the native sentinel, which is
then executed as a native transfer but pre-checked without gas) — and B for
the value `get_balance` returns: if B < R the call fails with the
insufficient-balance error carrying R and B, before any nonce fetch; the call
proceeds to the nonce fetch if and only if R ≤ B. -/
theorem c2_balance_check (env : Env) (ch : Chain) (to_address : String)
    (amount : ℚ) (token_address : Option String) (a : Account) (R B : ℚ)
    (hacc : (get_current_account env).1 = .ok a)
    (hR : R = match token_address with
      | none => amount + gas_cost_eth
      | some _ => amount)
    (hB : B = (get_balance env ch token_address).1) :
    (B < R → transfer env ch to_address amount token_address =
      ⟨.error (.valueError ("Insufficient balance. Required: " ++ toString R ++
          ", Available: " ++ toString B)),
        (get_balance env ch token_address).2, none⟩)
    ∧ (R ≤ B →
        ChainCall.getTxCount ∈ (transfer env ch to_address amount token_address).calls)
    ∧ (ChainCall.getTxCount ∈ (transfer env ch to_address amount token_address).calls →
        R ≤ B) := by
  subst hR
  subst hB
  unfold transfer
  simp only [hacc]
  by_cases hlt : (get_balance env ch token_address).1 <
      (match token_address with
        | none => amount + gas_cost_eth
        | some _ => amount)
  · rw [if_pos hlt]
    refine ⟨fun _ => rfl, ?_, ?_⟩
    · intro hle
      exact absurd hlt (not_lt.mpr hle)
    · intro hmem
      exact absurd hmem (get_balance_no_txcount env ch token_address)
  · rw [if_neg hlt]
    refine ⟨fun hc => absurd hc hlt, ?_, fun _ => not_lt.mp hlt⟩
    intro _
    cases ch.getTxCount with
    | error e => simp [List.mem_append]
    | ok n => simp [List.mem_append]

/-- Witness for C2 (amended): an under-funded native transfer fails with the
error carrying required and available amounts; a funded one reaches the nonce
fetch. -/
theorem c2_balance_check_witness :
    transfer envGood chainZero addrA 1 none =
      ⟨.error (.valueError ("Insufficient balance. Required: " ++
          toString ((1 : ℚ) + gas_cost_eth) ++ ", Available: " ++ toString ((0 : ℚ)))),
        [ChainCall.getBalanceNative], none⟩
    ∧ ChainCall.getTxCount ∈ (transfer envGood chainGood addrA 2 none).calls := by
  constructor
  · have h := (c2_balance_check envGood chainZero addrA 1 none acctGood
      (1 + gas_cost_eth) 0 (by decide) rfl (by decide)).1
      (by norm_num [gas_cost_eth])
    rw [h]
    have hc : (get_balance envGood chainZero none).2 = [ChainCall.getBalanceNative] := by
      decide
    rw [hc]
  · exact (c2_balance_check envGood chainGood addrA 2 none acctGood
      (2 + gas_cost_eth) 5 (by decide) rfl (by decide)).2.1
      (by norm_num [gas_cost_eth])

/-- Claim C3 is FALSE on the code: `transfer` applies no amount-positivity
check at all.  With a healthy configuration, `transfer` of amount 0 — a
non-positive amount, for which `to_wei(0, 'ether')` returns 0 and signing and
submission go through — does not fail and performs three chain-client
invocations (balance query, nonce fetch, raw submission); the claim demanded
a failure with zero invocations. -/
theorem c3_counterexample :
    ((0 : ℚ) ≤ 0)
    ∧ isOkE (transfer envGood chainGood addrA 0 none).result = true
    ∧ (transfer envGood chainGood addrA 0 none).calls =
        [ChainCall.getBalanceNative, ChainCall.getTxCount, ChainCall.sendRaw] := by
  have hacc : (get_current_account envGood).1 = .ok acctGood := by decide
  have hbal : (get_balance envGood chainGood none).1 = 5 := by decide
  have hlt : ¬ ((get_balance envGood chainGood none).1 < 0 + gas_cost_eth) := by
    rw [hbal]
    norm_num [gas_cost_eth]
  have hwei : to_wei_ether 0 = .ok (pyInt ((0 : ℚ) * 1000000000000000000)) :=
    to_wei_ether_ok 0 (le_refl 0) (by norm_num [UINT256_MAX])
  have hck : to_checksum_address addrA = .ok addrA := by decide
  have hafter : transferAfterNonce chainGood acctGood addrA 0 none 7 =
      (.ok ("Transaction sent: " ++ get_explorer_link ("0xdeadbeef")),
        [ChainCall.sendRaw],
        some (BuiltTx.native 7 addrA (pyInt ((0 : ℚ) * 1000000000000000000)) 21000
          gas_price_wei MONAD_CHAIN_ID)) := by
    simp only [transferAfterNonce]
    unfold transferNative
    simp only [hck, hwei]
    rfl
  have htr : transfer envGood chainGood addrA 0 none =
      ⟨.ok ("Transaction sent: " ++ get_explorer_link ("0xdeadbeef")),
        (get_balance envGood chainGood none).2 ++
          ChainCall.getTxCount :: [ChainCall.sendRaw],
        some (BuiltTx.native 7 addrA (pyInt ((0 : ℚ) * 1000000000000000000)) 21000
          gas_price_wei MONAD_CHAIN_ID)⟩ := by
    unfold transfer
    simp only [hacc]
    rw [if_neg hlt]
    simp only [show chainGood.getTxCount = Except.ok 7 from rfl, hafter]
  refine ⟨by norm_num, ?_, ?_⟩
  · rw [htr]
    rfl
  · rw [htr]
    decide

/-- Claim C3 (amended): for amount ≤ 0, `withdraw_funds` and
`execute_private_payment` fail before any chain-client call (the latter makes
no chain call on any input — it takes no chain handle at all);
`deposit_funds` makes no chain call but does NOT fail: it catches its own
positivity error and returns the `[DEMO]` placeholder success string; and
`transfer` applies no positivity check — with a resolvable account it always
performs at least one chain-client invocation (the balance query; amount 0
even proceeds through nonce fetch and submission, while a negative amount is
first rejected only by `to_wei` during transaction construction, after the
balance and nonce chain calls). -/
theorem c3_amount_guard (env : Env) (ch : Chain) (amount : ℚ) (hamt : amount ≤ 0)
    (rand : ℕ → DecoyRand) (nonceDraw : ℕ) (recipient memo : String) (dc : ℤ)
    (tok : Option String) (a : Account) :
    withdraw_funds env ch amount =
      (.error (.valueError "Amount must be greater than 0"), [])
    ∧ isErrE (execute_private_payment rand nonceDraw recipient amount memo dc).result
        = true
    ∧ deposit_funds env ch amount = (.ok (depositDemoMsg amount), [])
    ∧ ((get_current_account env).1 = .ok a →
        (transfer env ch recipient amount tok).calls ≠ []) := by
  refine ⟨?_, ?_, ?_, ?_⟩
  · unfold withdraw_funds
    rw [if_pos hamt]
  · unfold execute_private_payment
    cases haddr : is_address recipient with
    | false => rfl
    | true =>
      rw [if_neg (by decide : ¬ (true = false))]
      rw [if_pos hamt]
      rfl
  · have hin : deposit_funds_inner env ch amount =
        (.error (.valueError "Amount must be greater than 0"), []) := by
      unfold deposit_funds_inner
      rw [if_pos hamt]
    unfold deposit_funds
    rw [hin]
  · intro hacc
    unfold transfer
    simp only [hacc]
    by_cases hlt : (get_balance env ch tok).1 <
        (match tok with
          | none => amount + gas_cost_eth
          | some _ => amount)
    · rw [if_pos hlt]
      intro hemp
      obtain ⟨hzero, t, htok⟩ := get_balance_calls_empty env ch tok a hacc hemp
      subst htok
      rw [hzero] at hlt
      have hlt2 : (0 : ℚ) < amount := by simpa using hlt
      linarith
    · rw [if_neg hlt]
      cases ch.getTxCount with
      | error e => simp
      | ok n => simp

/-- Witness for C3 (amended) at amount 0 with a healthy environment. -/
theorem c3_amount_guard_witness :
    withdraw_funds envGood chainGood 0 =
      (.error (.valueError "Amount must be greater than 0"), [])
    ∧ deposit_funds envGood chainGood 0 = (.ok (depositDemoMsg 0), [])
    ∧ (transfer envGood chainGood addrA 0 none).calls ≠ [] :=
  ⟨(c3_amount_guard envGood chainGood 0 (by decide) rand0 1 addrA ("") 4 none
      acctGood).1,
   (c3_amount_guard envGood chainGood 0 (by decide) rand0 1 addrA ("") 4 none
      acctGood).2.2.1,
   (c3_amount_guard envGood chainGood 0 (by decide) rand0 1 addrA ("") 4 none
      acctGood).2.2.2 (by decide)⟩

/-- Claim C4: dispatch order and error reporting of `perform_action` — an
unregistered name fails with the unknown-action error naming the action; a
registered name on an unconfigured connection fails with the not-configured
error; with configuration fine, any parameter-validation failure aborts with
the invalid-parameters error carrying the comma-joined FULL list of messages;
each of these failures occurs with the bound operation not invoked (second
component `false`); and every violated parameter declaration contributes its
own message to that list. -/
theorem c4_dispatch_validation (env : Env) (ch : Chain)
    (ops : String → List (String × RawVal) → Except PyErr String)
    (name : String) (kwargs : List (String × RawVal)) :
    (lookupAction name = none →
      perform_action env ch ops name kwargs =
        (.error (.keyError ("Unknown action: " ++ name)), false))
    ∧ (∀ a, lookupAction name = some a → is_configured env ch = false →
        perform_action env ch ops name kwargs =
          (.error (.monadConnectionError "Monad connection is not properly configured"),
            false))
    ∧ (∀ a, lookupAction name = some a → is_configured env ch = true →
        validate_params a kwargs ≠ [] →
        perform_action env ch ops name kwargs =
          (.error (.valueError ("Invalid parameters: " ++
              String.intercalate (", ") (validate_params a kwargs))), false))
    ∧ (∀ a : ActionDecl, ∀ p, p ∈ a.parameters → paramBad kwargs p = true →
        badParamMsg kwargs p ∈ validate_params a kwargs) := by
  refine ⟨?_, ?_, ?_, ?_⟩
  · intro h
    unfold perform_action
    simp only [h]
  · intro a hlk hcfg
    unfold perform_action
    simp only [hlk, hcfg]
    simp
  · intro a hlk hcfg hne
    have hemp : (validate_params a kwargs).isEmpty = false := by
      cases hv : validate_params a kwargs with
      | nil => exact absurd hv hne
      | cons x xs => rfl
    unfold perform_action
    simp only [hlk, hcfg, hemp]
    simp
  · intro a p hp hbad
    unfold validate_params
    exact List.mem_map.mpr ⟨p, List.mem_filter.mpr ⟨hp, hbad⟩, rfl⟩

/-- Witness for C4: dispatching `transfer` with no arguments fails with the
invalid-parameters error listing BOTH missing required parameters. -/
theorem c4_dispatch_validation_witness :
    perform_action envGood chainGood ops0 ("transfer") [] =
      (.error (.valueError
        "Invalid parameters: Missing required parameter: to_address, Missing required parameter: amount"),
        false) := by
  have h := (c4_dispatch_validation envGood chainGood ops0 ("transfer") []).2.2.1
    ⟨"transfer",
      [⟨"to_address", true, .str, "Recipient address"⟩,
       ⟨"amount", true, .float, "Amount to transfer"⟩,
       ⟨"token_address", false, .str,
         "Token address (optional, native token if not provided)"⟩],
      "Send native token or tokens"⟩ (by decide) (by decide) (by decide)
  rw [h]
  decide

/-- Claim C8 is FALSE on the code as stated: the dispatcher does not wrap an
operation's exception into an `OperationFailedError` carrying the action name
— it logs and re-raises the ORIGINAL exception unchanged.  Dispatching
`get-balance` over an operation that raises a chain error with message
`boom` propagates exactly that error (after invoking the operation), and its
message does not mention the action name. -/
theorem c8_counterexample :
    perform_action envGood chainGood (fun _ _ => .error (.chainError ("boom")))
        ("get-balance") [] = (.error (.chainError ("boom")), true)
    ∧ containsSubstr (pyErrMsg (.chainError ("boom"))) ("get-balance") = false := by
  refine ⟨by decide, by decide⟩

/-- Claim C8 (amended): the dispatcher does not swallow operation errors —
whenever the bound operation raises, `perform_action` re-raises that very
exception unchanged to the caller (no `OperationFailedError` wrapper and no
action-name context is attached to the propagated error). -/
theorem c8_error_propagation (env : Env) (ch : Chain)
    (ops : String → List (String × RawVal) → Except PyErr String)
    (name : String) (kwargs : List (String × RawVal)) (a : ActionDecl) (e : PyErr)
    (hlk : lookupAction name = some a)
    (hcfg : is_configured env ch = true)
    (hval : validate_params a kwargs = [])
    (hop : ops (name.map (fun c => if c = '-' then '_' else c)) kwargs = .error e) :
    perform_action env ch ops name kwargs = (.error e, true) := by
  unfold perform_action
  simp only [hlk, hcfg, hval]
  simp [hop]

/-- Witness for C8 (amended) at a concrete failing operation. -/
theorem c8_error_propagation_witness :
    perform_action envGood chainGood (fun _ _ => .error (.chainError ("boom")))
      ("get-address") [] = (.error (.chainError ("boom")), true) :=
  c8_error_propagation envGood chainGood (fun _ _ => .error (.chainError ("boom")))
    ("get-address") [] ⟨"get-address", [], "Get your Monad wallet address"⟩
    (.chainError ("boom")) (by decide) (by decide) (by decide) rfl
